import Mathlib

/-
Verification of the storage-adapter contract of this repository against the
code of `src/chatterbot/storage/django_storage.py` (`DjangoStorageAdapter`).

The store is embedded as a list of statement rows in insertion order.  The
Django model classes themselves (`chatterbot/ext/django_chatterbot/models.py`)
are not part of the source tree; where their behaviour is needed it is
modelled from the spec, and every such definition carries a doc comment
saying so.  Everything else is translated directly from the adapter code.
-/

namespace Django

/-- A stored statement row.  Fields follow the columns written by
`DjangoStorageAdapter.update` (django_storage.py lines 79-84): `text`,
`conversation`, `in_response_to`, `extra_data`.  `created_at` is modelled
from the spec (§3: "timestamp assigned when the statement is first durably
stored; used for temporal ordering") as the insertion index. -/
structure Statement where
  text : String
  conversation : String
  in_response_to : Option String
  extra_data : String
  created_at : Nat
deriving DecidableEq, Repr

/-- The transient statement object handed to `update`
(`chatterbot.conversation.Statement`, constructed by callers; spec §3
lifecycle).  `extra_data` is optional because `update` reads it with
`getattr(statement, 'extra_data', '')`. -/
structure StatementObj where
  text : String
  conversation : String := "default"
  in_response_to : Option String := none
  extra_data : Option String := none
deriving DecidableEq, Repr

/-- Adapter state.  `read_only` is the construction flag of the storage
adapter base class (modelled from the spec §6: "read-only flag (default
false — when true, `update` is a no-op)"); the store is the statement
table. -/
structure Adapter where
  read_only : Bool := false
  store : List Statement := []
deriving DecidableEq, Repr

/-- A Django filter kwarg value: a string, a list of candidate texts, or
Python `None`. -/
inductive Val where
  | vstr (s : String)
  | vlist (l : List String)
  | vnull
deriving DecidableEq, Repr

/-- Python truthiness of a kwarg value (`if responses:` in
django_storage.py line 54): nonempty strings and nonempty lists are truthy,
`None` is falsy. -/
def Val.truthy : Val → Bool
  | .vstr s => !s.isEmpty
  | .vlist l => !l.isEmpty
  | .vnull => false

/-- Iterating a kwarg value as Python's `for response in responses`
(django_storage.py lines 56-57): a list yields its elements, a string
yields its characters as one-character strings. -/
def Val.elements : Val → List String
  | .vstr s => s.data.map (fun c => String.mk [c])
  | .vlist l => l
  | .vnull => []

/-- Character-level substring replacement, the semantics of Python's
`str.replace(pat, rep)` used on kwarg keys (django_storage.py line 47).
The fuel argument (instantiated with the string length) makes the
recursion structural. -/
def replaceChars (pat rep : List Char) : Nat → List Char → List Char
  | _, [] => []
  | 0, l => l
  | fuel + 1, c :: rest =>
    if pat.isPrefixOf (c :: rest) then
      rep ++ replaceChars pat rep fuel ((c :: rest).drop pat.length)
    else
      c :: replaceChars pat rep fuel rest

/-- `strReplace s pat rep` replaces every occurrence of `pat` in `s` by
`rep`, scanning left to right. -/
def strReplace (s pat rep : String) : String :=
  String.mk (replaceChars pat.data rep.data s.data.length s.data)

/-- The kwargs dictionary of `filter`, as an association list in insertion
order with distinct keys. -/
abbrev Kwargs := List (String × Val)

/-- Remove a key from the kwargs dictionary (`del kwargs[kwarg]`). -/
def eraseKey (kwargs : Kwargs) (k : String) : Kwargs :=
  kwargs.filter (fun p => !(p.1 == k))

/-- Dictionary assignment `kwargs[k] = v`: any previous binding of `k` is
replaced and the binding is placed last. -/
def kwargAssign (kwargs : Kwargs) (k : String) (v : Val) : Kwargs :=
  eraseKey kwargs k ++ [(k, v)]

/-- One iteration of the key-rewriting loop of `filter`
(django_storage.py lines 44-48): read the current value of the original
key `k` from the live dictionary, delete the key, and re-assign the value
under `k.replace('in_response_to', 'in_response')`. -/
def rewriteStep (state : Kwargs) (k : String) : Kwargs :=
  match state.lookup k with
  | none => state
  | some v => kwargAssign (eraseKey state k) (strReplace k "in_response_to" "in_response") v

/-- The whole rewriting loop: iterate over a copy of the original key list
while mutating the dictionary, exactly as the source does. -/
def rewriteKeys (kwargs : Kwargs) : Kwargs :=
  (kwargs.map Prod.fst).foldl rewriteStep kwargs

/-- The `in_response` special case of `filter` (django_storage.py lines
50-59): pop the key; a truthy value becomes an
`in_response__response__text__in` inclusion list built element by element,
a falsy value (empty list, empty string or `None`) becomes
`in_response = None`. -/
def processInResponse (kwargs : Kwargs) : Kwargs :=
  match kwargs.lookup "in_response" with
  | none => kwargs
  | some v =>
    let kwargs' := eraseKey kwargs "in_response"
    if v.truthy then
      kwargAssign kwargs' "in_response__response__text__in" (.vlist v.elements)
    else
      kwargAssign kwargs' "in_response" .vnull

/-- The `parameters` dict of `filter` (django_storage.py lines 61-64): when
the processed kwargs constrain the nested reply-target text, the same value
is also queried through the reverse relation `responses__statement__text`. -/
def parametersOf (kwargs : Kwargs) : Kwargs :=
  match kwargs.lookup "in_response__response__text" with
  | some v => [("responses__statement__text", v)]
  | none => []

/-- Semantics of a single Django field lookup against a statement row `s`
of `store`.  The relation keys are those of the django_chatterbot models
(absent from src/), modelled from the spec §3/§4.2: `in_response` is the
reply-target link of `s` (a row exists exactly when `s.in_response_to` is
non-null), traversing `__response__text` reaches the reply-target text,
and the reverse relation `responses__statement__text` reaches the text of
a statement that replies to `s`.  Unsupported keys match nothing. -/
def matchKwarg (store : List Statement) (s : Statement) : String × Val → Bool
  | ("text", .vstr v) => s.text == v
  | ("conversation", .vstr v) => s.conversation == v
  | ("extra_data", .vstr v) => s.extra_data == v
  | ("in_response", .vnull) => s.in_response_to.isNone
  | ("in_response__response__text__in", .vlist ts) => ts.any (fun t => s.in_response_to == some t)
  | ("in_response__response__text", .vstr v) => s.in_response_to == some v
  | ("responses__statement__text", .vstr v) =>
      store.any (fun u => u.text == v && u.in_response_to == some s.text)
  | _ => false

/-- Conjunction of all field lookups of one `Q(**d)` object. -/
def matchAll (store : List Statement) (s : Statement) (kwargs : Kwargs) : Bool :=
  kwargs.all (matchKwarg store s)

/-- `Q(**kwargs) | Q(**parameters)` (django_storage.py line 66).  Django's
`Q._combine` drops an empty operand, so the disjunction appears only when
both dicts are nonempty, and two empty dicts match everything. -/
def combineQ (kwargs params : Kwargs) (store : List Statement) (s : Statement) : Bool :=
  match kwargs, params with
  | [], [] => true
  | _, [] => matchAll store s kwargs
  | [], _ => matchAll store s params
  | _, _ => matchAll store s kwargs || matchAll store s params

/-- The sortable fields of the `Statement` model: the four columns written
by `update` (django_storage.py lines 79-84) plus the `created_at`
timestamp of spec §3. -/
def statementFields : List String :=
  ["text", "conversation", "in_response_to", "extra_data", "created_at"]

/-- Ascending order on the nullable `in_response_to` column: null rows
sort first, non-null rows by their text (ascending with nulls first, as
the backing store orders a nullable column ascending). -/
def optLeB : Option String → Option String → Bool
  | none, _ => true
  | some _, none => false
  | some a, some b => decide (a ≤ b)

/-- The ascending comparison `order_by` uses for the named model field. -/
def fieldLe (f : String) (a b : Statement) : Bool :=
  if f = "text" then decide (a.text ≤ b.text)
  else if f = "conversation" then decide (a.conversation ≤ b.conversation)
  else if f = "in_response_to" then optLeB a.in_response_to b.in_response_to
  else if f = "extra_data" then decide (a.extra_data ≤ b.extra_data)
  else if f = "created_at" then decide (a.created_at ≤ b.created_at)
  else true

/-- `statements.order_by(order)` (django_storage.py lines 68-69): a stable
ascending sort by the named model field, guarded by the source's truthiness
check `if order:` (an empty string means no ordering).  A name that is not
a field of the model makes Django raise `FieldError` rather than return a
queryset; that case produces no result to compare, is unreachable under
the contract, and is left as the identity here. -/
def applyOrder (order : Option Val) (l : List Statement) : List Statement :=
  match order with
  | some (.vstr f) =>
    if f.isEmpty then l
    else if f ∈ statementFields then
      List.insertionSort (fun a b => fieldLe f a b = true) l
    else l
  | _ => l

/-- `DjangoStorageAdapter.filter` (django_storage.py lines 32-71): pop
`order_by`, rewrite `in_response_to` key spellings to `in_response`,
expand the `in_response` criterion, build the reverse-relation
`parameters`, and return the statements matching
`Q(**kwargs) | Q(**parameters)`, sorted when ordering was requested. -/
def filter (kwargs : Kwargs) (store : List Statement) : List Statement :=
  let order := kwargs.lookup "order_by"
  let kwargs₁ := processInResponse (rewriteKeys (eraseKey kwargs "order_by"))
  let params := parametersOf kwargs₁
  applyOrder order (store.filter (fun s => combineQ kwargs₁ params store s))

/-- `DjangoStorageAdapter.count` (django_storage.py lines 28-30). -/
def count (store : List Statement) : Nat :=
  store.length

/-- `DjangoStorageAdapter.update` (django_storage.py lines 73-86): an
unconditional `Statement.objects.create` of a fresh row from the given
object's fields — no lookup of an existing row with the same text and no
consultation of the `read_only` flag appear in the source. -/
def update (a : Adapter) (s : StatementObj) : Adapter × Statement :=
  let row : Statement :=
    { text := s.text
      conversation := s.conversation
      in_response_to := s.in_response_to
      extra_data := s.extra_data.getD ""
      created_at := a.store.length }
  ({ a with store := a.store ++ [row] }, row)

/-- `DjangoStorageAdapter.get_random` (django_storage.py lines 88-93):
`order_by('?').first()`.  The random shuffle is passed in as a function
`σ`; the Django guarantee that it permutes the table is a hypothesis of
the theorems that use it. -/
def get_random (σ : List Statement → List Statement) (store : List Statement) : Option Statement :=
  (σ store).head?

/-- `DjangoStorageAdapter.remove` (django_storage.py lines 95-105):
delete every row whose text equals the argument. -/
def remove (t : String) (store : List Statement) : List Statement :=
  store.filter (fun s => !(s.text == t))

/-- A row of the `Response` table of the django_chatterbot models.
Modelled from the spec: the models file is absent from src/; per spec §3
(the response aggregate and the `created_at` ordering invariant) and the
usage in django_storage.py lines 107-123, each stored reply contributes a
row carrying its conversation, its creation time and the text of the
statement it replies to (the `response` foreign key's target). -/
structure RespRow where
  conversation : String
  created_at : Nat
  parentText : String
deriving DecidableEq, Repr

/-- Modelled from the spec: the `Response` rows derived from the store —
one per statement whose `in_response_to` is non-null (spec §3: a
response-pair records that one statement replies to another). -/
def responseRows (store : List Statement) : List RespRow :=
  store.filterMap (fun s =>
    s.in_response_to.map (fun t => ⟨s.conversation, s.created_at, t⟩))

/-- `DjangoStorageAdapter.get_latest_response` (django_storage.py lines
107-123): filter the Response rows by conversation, order ascending by
`created_at` (stable, so ties keep insertion order as the spec's ordering
invariant demands), take the last row and return the statement its
`response` foreign key points to; `None` when no row qualifies. -/
def get_latest_response (conversation : String) (store : List Statement) : Option Statement :=
  let rows := (responseRows store).filter (fun r => r.conversation == conversation)
  let sorted := List.insertionSort (fun a b => a.created_at ≤ b.created_at) rows
  match sorted.getLast? with
  | none => none
  | some row => store.find? (fun s => s.text == row.parentText)

/-- `DjangoStorageAdapter.get_response_statements` (django_storage.py
lines 135-144): `Statement.objects.exclude(in_response_to__isnull=True)`,
the statements whose `in_response_to` is non-null. -/
def get_response_statements (store : List Statement) : List Statement :=
  store.filter (fun s => !s.in_response_to.isNone)

/-- The result of one read operation of the adapter. -/
inductive ReadResult where
  | num (n : Nat)
  | stmts (l : List Statement)
  | opt (s : Option Statement)

/-- The read operations of the storage-adapter contract: `count`,
`filter`, `get_random`, `get_latest_response`, `get_response_statements`. -/
inductive ReadOp where
  | cnt
  | flt (kwargs : Kwargs)
  | rnd (σ : List Statement → List Statement)
  | latest (conversation : String)
  | resps

/-- Run one read operation on the adapter state.  Each operation is
translated from its method in django_storage.py; none of those method
bodies contains a create, save or delete call, so each returns the
adapter state it was given. -/
def runRead (op : ReadOp) (a : Adapter) : Adapter × ReadResult :=
  match op with
  | .cnt => (a, .num (count a.store))
  | .flt kwargs => (a, .stmts (filter kwargs a.store))
  | .rnd σ => (a, .opt (get_random σ a.store))
  | .latest conversation => (a, .opt (get_latest_response conversation a.store))
  | .resps => (a, .stmts (get_response_statements a.store))

/-- Run a sequence of read operations, threading the adapter state. -/
def runReads (ops : List ReadOp) (a : Adapter) : Adapter :=
  ops.foldl (fun st op => (runRead op st).1) a

/-- The spec's reading of a single supported filter criterion, written
from the spec's words for the refinement comparison (spec §4.1: `text`
and `in_response_to` criteria, conjunction; §4.2 rule 2: a candidate list
is an inclusion test and the empty list means "in_response_to is null";
a null criterion likewise selects the parentless statements). -/
def specHolds (s : Statement) : String × Val → Bool
  | ("text", .vstr v) => s.text == v
  | ("conversation", .vstr v) => s.conversation == v
  | ("in_response_to", .vstr v) => s.in_response_to == some v
  | ("in_response_to", .vlist []) => s.in_response_to.isNone
  | ("in_response_to", .vlist ts) => ts.any (fun t => s.in_response_to == some t)
  | ("in_response_to", .vnull) => s.in_response_to.isNone
  | _ => false

/-- Value shapes of an `in_response_to` criterion for which the adapter
implements the spec's conjunction: a candidate list or null. -/
inductive CandVal where
  | cands (l : List String)
  | nullv
deriving DecidableEq, Repr

/-- A criteria map over the supported fields, each given at most once. -/
structure Crit where
  textC : Option String := none
  conversationC : Option String := none
  inResponseToC : Option CandVal := none
deriving DecidableEq, Repr

/-- The kwargs dictionary a caller passes for the criteria map `c`. -/
def Crit.kwargs (c : Crit) : Kwargs :=
  (match c.textC with | some v => [("text", Val.vstr v)] | none => [])
  ++ (match c.conversationC with | some v => [("conversation", Val.vstr v)] | none => [])
  ++ (match c.inResponseToC with
      | some (.cands l) => [("in_response_to", Val.vlist l)]
      | some .nullv => [("in_response_to", Val.vnull)]
      | none => [])

/-- Scenario store for the update-duplicate claim: one stored statement
with text `A` and no parent. -/
def dupStore : List Statement :=
  [{ text := "A", conversation := "default", in_response_to := none,
     extra_data := "", created_at := 0 }]

/-- Conversation-chain scenario: conversation `test` with A (no parent),
B (replies to A), C (replies to B), stored in that order through
`update`. -/
def chainAdapter : Adapter :=
  (update (update (update { read_only := false, store := [] }
    { text := "A", conversation := "test" }).1
    { text := "B", conversation := "test", in_response_to := some "A" }).1
    { text := "C", conversation := "test", in_response_to := some "B" }).1

/-- Response-filter scenario store: two thread starters and two replies. -/
def phoneStore : List Statement :=
  [ { text := "What is your quest?", conversation := "default", in_response_to := none,
      extra_data := "", created_at := 0 },
    { text := "This is a phone.", conversation := "default", in_response_to := none,
      extra_data := "", created_at := 1 },
    { text := "A what?", conversation := "default", in_response_to := some "This is a phone.",
      extra_data := "", created_at := 2 },
    { text := "A phone.", conversation := "default", in_response_to := some "A what?",
      extra_data := "", created_at := 3 } ]

/-- A statement whose `in_response_to` is the multi-character text `Yes`. -/
def yesReply : Statement :=
  { text := "B", conversation := "default", in_response_to := some "Yes",
    extra_data := "", created_at := 0 }

/-- Store for the scalar-criterion counterexample. -/
def yesStore : List Statement := [yesReply]

/-- Removal scenario store: `X` and a reply `Y` that references `X`. -/
def removeStore : List Statement :=
  [ { text := "X", conversation := "default", in_response_to := none,
      extra_data := "", created_at := 0 },
    { text := "Y", conversation := "default", in_response_to := some "X",
      extra_data := "", created_at := 1 } ]

/-- Ordering scenario store: two rows of conversation `test` stored out of
`created_at` order, plus a row of another conversation. -/
def orderStore : List Statement :=
  [ { text := "b", conversation := "test", in_response_to := none,
      extra_data := "", created_at := 2 },
    { text := "a", conversation := "test", in_response_to := none,
      extra_data := "", created_at := 1 },
    { text := "c", conversation := "other", in_response_to := none,
      extra_data := "", created_at := 0 } ]

/-- Count of rows with text `t` plus count of the other rows is the store
size (helper for the removal claim). -/
theorem length_filter_text_add_remove (t : String) (store : List Statement) :
    (store.filter (fun s => s.text == t)).length + (remove t store).length = store.length := by
  induction store with
  | nil => rfl
  | cons a l ih =>
    simp only [remove, List.filter_cons] at ih ⊢
    by_cases h : a.text == t
    · simp [h]
      omega
    · simp [h]
      omega

end Django

open Django

/-- C1: the claim says `update` of a statement whose text already exists
must not create a duplicate record (update-in-place keyed by text).  The
code violates it: `DjangoStorageAdapter.update` runs an unconditional
`Statement.objects.create`, so updating text `A` on a store that already
holds one row with text `A` leaves two rows with that text, and the
pre-existing row's fields are untouched. -/
theorem update_duplicates_existing_text :
    (dupStore.filter (fun s => s.text == "A")).length = 1
  ∧ ((update { read_only := false, store := dupStore }
        { text := "A", in_response_to := some "B" }).1.store.filter
        (fun s => s.text == "A")).length = 2
  ∧ (update { read_only := false, store := dupStore }
        { text := "A", in_response_to := some "B" }).1.store.head?
      = some { text := "A", conversation := "default", in_response_to := none,
               extra_data := "", created_at := 0 } := by
  refine ⟨by decide, by decide, by decide⟩

/-- C2: the claim says with `read_only` true, `update` is a no-op leaving
`count()` unchanged and `filter(text=...)` empty.  The code violates it:
`DjangoStorageAdapter.update` never consults the flag, so on a read-only
adapter with an empty store the count changes from 0 to 1 and the new text
becomes retrievable. -/
theorem update_ignores_read_only :
    ({ read_only := true, store := [] } : Adapter).read_only = true
  ∧ count ({ read_only := true, store := [] } : Adapter).store = 0
  ∧ count (update { read_only := true, store := [] } { text := "New statement" }).1.store = 1
  ∧ filter [("text", Val.vstr "New statement")]
      (update { read_only := true, store := [] } { text := "New statement" }).1.store ≠ [] := by
  refine ⟨rfl, rfl, rfl, by decide⟩

/-- C3: on the chain A (no parent) → B (replies to A) → C (replies to B)
in conversation `test`, `get_latest_response("test")` returns B — the
response half of the most recent response-pair — not C; a conversation
with zero statements yields null, and so does the empty store. -/
theorem get_latest_response_returns_response_half :
    get_latest_response "test" chainAdapter.store
      = some { text := "B", conversation := "test", in_response_to := some "A",
               extra_data := "", created_at := 1 }
  ∧ get_latest_response "other" chainAdapter.store = none
  ∧ get_latest_response "test" [] = none := by
  refine ⟨by decide, by decide, by decide⟩

/-- C4: filtering with `in_response_to` equal to the empty list returns
exactly the statements whose `in_response_to` is null, and this is
distinct from omitting the key, which returns every statement. -/
theorem filter_empty_candidates_means_null :
    ∀ store : List Statement,
      filter [("in_response_to", Val.vlist [])] store
        = store.filter (fun s => s.in_response_to.isNone)
    ∧ filter [] store = store := by
  intro store
  constructor
  · have h : filter [("in_response_to", Val.vlist [])] store
        = store.filter (fun s => combineQ [("in_response", Val.vnull)] [] store s) := rfl
    rw [h]
    exact List.filter_congr (fun s _ => by simp [combineQ, matchAll, matchKwarg])
  · have h : filter [] store = store.filter (fun _ => true) := rfl
    rw [h]
    exact List.filter_true store

/-- C5: `get_response_statements` returns exactly the stored statements
whose `in_response_to` is non-null; on the four-statement phone scenario
it returns exactly `A what?` and `A phone.`. -/
theorem get_response_statements_are_replies :
    (∀ (store : List Statement) (s : Statement),
        s ∈ get_response_statements store ↔ s ∈ store ∧ s.in_response_to ≠ none)
  ∧ (get_response_statements phoneStore).map (fun s => s.text) = ["A what?", "A phone."] := by
  constructor
  · intro store s
    cases h : s.in_response_to <;> simp [get_response_statements, List.mem_filter, h]
  · decide

/-- C6 counterexample: the lone stored statement satisfies the criterion
`in_response_to = "Yes"` in the spec's reading, yet `filter` returns the
empty list — the adapter iterates the scalar string character-wise into an
inclusion test, so the result is not the set of statements satisfying the
given criteria. -/
theorem filter_scalar_criterion_breaks_conjunction :
    specHolds yesReply ("in_response_to", Val.vstr "Yes") = true
  ∧ yesReply ∈ yesStore
  ∧ filter [("in_response_to", Val.vstr "Yes")] yesStore = [] := by
  refine ⟨rfl, by decide, by decide⟩

/-- Bridging lemma: when the kwargs carry no ordering request, normalize
to `K` and no reverse-relation parameters arise, `filter` is the list
filter by the conjunction of `K`'s lookups. -/
theorem filter_eq_matchAll (kwargs K : Kwargs) (store : List Statement)
    (ho : kwargs.lookup "order_by" = none)
    (h : processInResponse (rewriteKeys (eraseKey kwargs "order_by")) = K)
    (hp : parametersOf K = []) :
    filter kwargs store = store.filter (fun s => matchAll store s K) := by
  have hbody : filter kwargs store
      = applyOrder (kwargs.lookup "order_by")
          (store.filter (fun s =>
            combineQ (processInResponse (rewriteKeys (eraseKey kwargs "order_by")))
              (parametersOf (processInResponse (rewriteKeys (eraseKey kwargs "order_by"))))
              store s)) := rfl
  rw [hbody, ho, h, hp]
  show store.filter (fun s => combineQ K [] store s) = _
  exact List.filter_congr (fun s _ => by cases K <;> simp [combineQ, matchAll])

/-- Appending a key not yet bound makes it the lookup result. -/
theorem lookup_append_last (l : Kwargs) (k : String) (v : Val) (h : l.lookup k = none) :
    (l ++ [(k, v)]).lookup k = some v := by
  induction l with
  | nil => simp [List.lookup]
  | cons p rest ih =>
    rcases p with ⟨a, b⟩
    by_cases hk : k == a
    · simp [List.lookup, hk] at h
    · simp only [List.cons_append, List.lookup, hk] at h ⊢
      exact ih h

/-- Erasing a key from a list extended with that key erases the extension. -/
theorem eraseKey_append_last (l : Kwargs) (k : String) (v : Val) :
    eraseKey (l ++ [(k, v)]) k = eraseKey l k := by
  simp [eraseKey, List.filter_append]

/-- No criteria map over the supported fields binds `order_by`. -/
theorem kwargs_lookup_order (c : Crit) : c.kwargs.lookup "order_by" = none := by
  rcases c with ⟨t, cv, i⟩
  rcases t with _ | tv <;> rcases cv with _ | cc <;> rcases i with _ | ⟨l | _⟩ <;> rfl

/-- Every supported field name is non-empty. -/
theorem fields_nonempty (f : String) (hf : f ∈ statementFields) : f.isEmpty = false := by
  simp only [statementFields, List.mem_cons, List.not_mem_nil, or_false] at hf
  rcases hf with rfl | rfl | rfl | rfl | rfl <;> decide

/-- The per-field ascending comparison is total. -/
theorem fieldLe_total (f : String) : ∀ a b : Statement, fieldLe f a b = true ∨ fieldLe f b a = true := by
  intro a b
  unfold fieldLe
  split_ifs
  · simpa using le_total a.text b.text
  · simpa using le_total a.conversation b.conversation
  · cases ha : a.in_response_to <;> cases hb : b.in_response_to <;> simp [optLeB]
    exact le_total _ _
  · simpa using le_total a.extra_data b.extra_data
  · simpa using le_total a.created_at b.created_at
  · simp

/-- The per-field ascending comparison is transitive. -/
theorem fieldLe_trans (f : String) :
    ∀ a b c : Statement, fieldLe f a b = true → fieldLe f b c = true → fieldLe f a c = true := by
  intro a b c
  unfold fieldLe
  split_ifs
  · intro h1 h2
    simp only [decide_eq_true_eq] at h1 h2 ⊢
    exact le_trans h1 h2
  · intro h1 h2
    simp only [decide_eq_true_eq] at h1 h2 ⊢
    exact le_trans h1 h2
  · cases ha : a.in_response_to <;> cases hb : b.in_response_to <;>
      cases hc : c.in_response_to <;> simp [optLeB]
    exact fun h1 h2 => le_trans h1 h2
  · intro h1 h2
    simp only [decide_eq_true_eq] at h1 h2 ⊢
    exact le_trans h1 h2
  · intro h1 h2
    simp only [decide_eq_true_eq] at h1 h2 ⊢
    exact le_trans h1 h2
  · simp

/-- Appending an `order_by` request to criteria that make none of their own
turns `filter` into the ascending insertion sort of the unordered result. -/
theorem filter_order_append (kwargs : Kwargs) (f : String) (store : List Statement)
    (ho : kwargs.lookup "order_by" = none)
    (hf : f.isEmpty = false) (hmem : f ∈ statementFields) :
    filter (kwargs ++ [("order_by", Val.vstr f)]) store
      = List.insertionSort (fun a b => fieldLe f a b = true) (filter kwargs store) := by
  have h1 : (kwargs ++ [("order_by", Val.vstr f)]).lookup "order_by" = some (Val.vstr f) :=
    lookup_append_last kwargs "order_by" (Val.vstr f) ho
  have h2 : eraseKey (kwargs ++ [("order_by", Val.vstr f)]) "order_by" = eraseKey kwargs "order_by" :=
    eraseKey_append_last kwargs "order_by" (Val.vstr f)
  have hbodyL : filter (kwargs ++ [("order_by", Val.vstr f)]) store
      = applyOrder ((kwargs ++ [("order_by", Val.vstr f)]).lookup "order_by")
          (store.filter (fun s =>
            combineQ
              (processInResponse (rewriteKeys (eraseKey (kwargs ++ [("order_by", Val.vstr f)]) "order_by")))
              (parametersOf
                (processInResponse (rewriteKeys (eraseKey (kwargs ++ [("order_by", Val.vstr f)]) "order_by"))))
              store s)) := rfl
  have hbodyR : filter kwargs store
      = applyOrder (kwargs.lookup "order_by")
          (store.filter (fun s =>
            combineQ (processInResponse (rewriteKeys (eraseKey kwargs "order_by")))
              (parametersOf (processInResponse (rewriteKeys (eraseKey kwargs "order_by"))))
              store s)) := rfl
  rw [hbodyL, hbodyR, h1, h2, ho]
  simp [applyOrder, hf, hmem]

/-- For any ordering-free criteria, requesting `order_by` on a model field
yields a result sorted ascending by that field and permuting the unordered
result. -/
theorem orderBy_sorted_and_perm (f : String) (kwargs : Kwargs) (store : List Statement)
    (ho : kwargs.lookup "order_by" = none)
    (hf : f.isEmpty = false) (hmem : f ∈ statementFields) :
    List.Sorted (fun a b : Statement => fieldLe f a b = true)
      (filter (kwargs ++ [("order_by", Val.vstr f)]) store)
  ∧ List.Perm (filter (kwargs ++ [("order_by", Val.vstr f)]) store) (filter kwargs store) := by
  rw [filter_order_append kwargs f store ho hf hmem]
  constructor
  · haveI : IsTotal Statement (fun a b => fieldLe f a b = true) := ⟨fieldLe_total f⟩
    haveI : IsTrans Statement (fun a b => fieldLe f a b = true) := ⟨fieldLe_trans f⟩
    exact List.sorted_insertionSort _ _
  · exact List.perm_insertionSort _ _

set_option maxHeartbeats 3200000 in
/-- C6 amended: for criteria maps over the supported fields `text`,
`conversation` and `in_response_to` — the latter with a candidate list or
null value, a scalar string being iterated character-wise by the adapter —
`filter` returns exactly the statements satisfying all given criteria;
the empty criteria map returns every stored statement; and when `order_by`
names a field of the statement model, the result is the same matching set
sorted ascending by that field. -/
theorem filter_is_conjunction_on_supported_criteria :
    (∀ (c : Crit) (store : List Statement),
        filter c.kwargs store = store.filter (fun s => c.kwargs.all (specHolds s)))
  ∧ (∀ store : List Statement, filter [] store = store)
  ∧ (∀ (c : Crit) (f : String) (store : List Statement),
        f ∈ statementFields →
        List.Sorted (fun a b : Statement => fieldLe f a b = true)
          (filter (c.kwargs ++ [("order_by", Val.vstr f)]) store)
      ∧ List.Perm (filter (c.kwargs ++ [("order_by", Val.vstr f)]) store)
          (filter c.kwargs store)) := by
  refine ⟨?_, ?_, ?_⟩
  · rintro ⟨t, cv, i⟩ store
    rcases t with _ | tv <;> rcases cv with _ | cc <;>
      rcases i with _ | ⟨l | _⟩ <;>
      try rcases l with _ | ⟨x, xs⟩
    · exact (filter_eq_matchAll
          []
          [] store rfl rfl rfl).trans
        (List.filter_congr fun s _ => by simp [matchAll, matchKwarg, specHolds, Crit.kwargs])
    · exact (filter_eq_matchAll
          [("in_response_to", Val.vlist [])]
          [("in_response", Val.vnull)] store rfl rfl rfl).trans
        (List.filter_congr fun s _ => by simp [matchAll, matchKwarg, specHolds, Crit.kwargs])
    · exact (filter_eq_matchAll
          [("in_response_to", Val.vlist (x :: xs))]
          [("in_response__response__text__in", Val.vlist (x :: xs))] store rfl rfl rfl).trans
        (List.filter_congr fun s _ => by simp [matchAll, matchKwarg, specHolds, Crit.kwargs])
    · exact (filter_eq_matchAll
          [("in_response_to", Val.vnull)]
          [("in_response", Val.vnull)] store rfl rfl rfl).trans
        (List.filter_congr fun s _ => by simp [matchAll, matchKwarg, specHolds, Crit.kwargs])
    · exact (filter_eq_matchAll
          [("conversation", Val.vstr cc)]
          [("conversation", Val.vstr cc)] store rfl rfl rfl).trans
        (List.filter_congr fun s _ => by simp [matchAll, matchKwarg, specHolds, Crit.kwargs])
    · exact (filter_eq_matchAll
          [("conversation", Val.vstr cc), ("in_response_to", Val.vlist [])]
          [("conversation", Val.vstr cc), ("in_response", Val.vnull)] store rfl rfl rfl).trans
        (List.filter_congr fun s _ => by simp [matchAll, matchKwarg, specHolds, Crit.kwargs])
    · exact (filter_eq_matchAll
          [("conversation", Val.vstr cc), ("in_response_to", Val.vlist (x :: xs))]
          [("conversation", Val.vstr cc), ("in_response__response__text__in", Val.vlist (x :: xs))] store rfl rfl rfl).trans
        (List.filter_congr fun s _ => by simp [matchAll, matchKwarg, specHolds, Crit.kwargs])
    · exact (filter_eq_matchAll
          [("conversation", Val.vstr cc), ("in_response_to", Val.vnull)]
          [("conversation", Val.vstr cc), ("in_response", Val.vnull)] store rfl rfl rfl).trans
        (List.filter_congr fun s _ => by simp [matchAll, matchKwarg, specHolds, Crit.kwargs])
    · exact (filter_eq_matchAll
          [("text", Val.vstr tv)]
          [("text", Val.vstr tv)] store rfl rfl rfl).trans
        (List.filter_congr fun s _ => by simp [matchAll, matchKwarg, specHolds, Crit.kwargs])
    · exact (filter_eq_matchAll
          [("text", Val.vstr tv), ("in_response_to", Val.vlist [])]
          [("text", Val.vstr tv), ("in_response", Val.vnull)] store rfl rfl rfl).trans
        (List.filter_congr fun s _ => by simp [matchAll, matchKwarg, specHolds, Crit.kwargs])
    · exact (filter_eq_matchAll
          [("text", Val.vstr tv), ("in_response_to", Val.vlist (x :: xs))]
          [("text", Val.vstr tv), ("in_response__response__text__in", Val.vlist (x :: xs))] store rfl rfl rfl).trans
        (List.filter_congr fun s _ => by simp [matchAll, matchKwarg, specHolds, Crit.kwargs])
    · exact (filter_eq_matchAll
          [("text", Val.vstr tv), ("in_response_to", Val.vnull)]
          [("text", Val.vstr tv), ("in_response", Val.vnull)] store rfl rfl rfl).trans
        (List.filter_congr fun s _ => by simp [matchAll, matchKwarg, specHolds, Crit.kwargs])
    · exact (filter_eq_matchAll
          [("text", Val.vstr tv), ("conversation", Val.vstr cc)]
          [("text", Val.vstr tv), ("conversation", Val.vstr cc)] store rfl rfl rfl).trans
        (List.filter_congr fun s _ => by simp [matchAll, matchKwarg, specHolds, Crit.kwargs])
    · exact (filter_eq_matchAll
          [("text", Val.vstr tv), ("conversation", Val.vstr cc), ("in_response_to", Val.vlist [])]
          [("text", Val.vstr tv), ("conversation", Val.vstr cc), ("in_response", Val.vnull)] store rfl rfl rfl).trans
        (List.filter_congr fun s _ => by simp [matchAll, matchKwarg, specHolds, Crit.kwargs])
    · exact (filter_eq_matchAll
          [("text", Val.vstr tv), ("conversation", Val.vstr cc), ("in_response_to", Val.vlist (x :: xs))]
          [("text", Val.vstr tv), ("conversation", Val.vstr cc), ("in_response__response__text__in", Val.vlist (x :: xs))] store rfl rfl rfl).trans
        (List.filter_congr fun s _ => by simp [matchAll, matchKwarg, specHolds, Crit.kwargs])
    · exact (filter_eq_matchAll
          [("text", Val.vstr tv), ("conversation", Val.vstr cc), ("in_response_to", Val.vnull)]
          [("text", Val.vstr tv), ("conversation", Val.vstr cc), ("in_response", Val.vnull)] store rfl rfl rfl).trans
        (List.filter_congr fun s _ => by simp [matchAll, matchKwarg, specHolds, Crit.kwargs])
  · intro store
    have h : filter [] store = store.filter (fun _ => true) := rfl
    rw [h]
    exact List.filter_true store
  · intro c f store hf
    exact orderBy_sorted_and_perm f c.kwargs store (kwargs_lookup_order c)
      (fields_nonempty f hf) hf

/-- C6 witness: on the ordering scenario store, the criteria map
`conversation = "test"` with `order_by = "created_at"` yields a result
sorted ascending by `created_at` that permutes the unordered result. -/
theorem filter_is_conjunction_on_supported_criteria_witness :
    "created_at" ∈ statementFields
  ∧ List.Sorted (fun a b : Statement => fieldLe "created_at" a b = true)
      (filter (Crit.kwargs { conversationC := some "test" }
        ++ [("order_by", Val.vstr "created_at")]) orderStore)
  ∧ List.Perm (filter (Crit.kwargs { conversationC := some "test" }
        ++ [("order_by", Val.vstr "created_at")]) orderStore)
      (filter (Crit.kwargs { conversationC := some "test" }) orderStore) := by
  have h := filter_is_conjunction_on_supported_criteria.2.2
    { conversationC := some "test" } "created_at" orderStore (by decide)
  exact ⟨by decide, h.1, h.2⟩

/-- C7: `remove(t)` deletes every stored statement whose text is `t` and
nothing else: `filter(text=t)` is empty afterwards, a store with exactly
one match shrinks by exactly one, and every other statement — including
ones whose `in_response_to` references `t` — remains stored unchanged. -/
theorem remove_deletes_exactly_matching_text :
    ∀ (t : String) (store : List Statement),
      filter [("text", Val.vstr t)] (remove t store) = []
    ∧ ((store.filter (fun s => s.text == t)).length = 1 →
        (remove t store).length = store.length - 1)
    ∧ (∀ s : Statement, s ∈ store → s.text ≠ t → s ∈ remove t store) := by
  intro t store
  refine ⟨?_, ?_, ?_⟩
  · have h : filter [("text", Val.vstr t)] (remove t store)
        = (remove t store).filter (fun s => combineQ [("text", Val.vstr t)] [] (remove t store) s) := rfl
    rw [h]
    refine List.filter_eq_nil_iff.mpr ?_
    intro s hs
    have hne : s.text ≠ t := by
      have hmem := List.mem_filter.mp hs
      simpa using hmem.2
    simp [combineQ, matchAll, matchKwarg, hne]
  · intro h1
    have h2 := length_filter_text_add_remove t store
    omega
  · intro s hs hne
    exact List.mem_filter.mpr ⟨hs, by simp [hne]⟩

/-- C7 witness: on the store `[X, Y (replies to X)]`, removing `X` leaves
`filter(text=X)` empty, shrinks the store by exactly one, and keeps the
dangling reply `Y` stored unchanged. -/
theorem remove_deletes_exactly_matching_text_witness :
    filter [("text", Val.vstr "X")] (remove "X" removeStore) = []
  ∧ (remove "X" removeStore).length = removeStore.length - 1
  ∧ ({ text := "Y", conversation := "default", in_response_to := some "X",
       extra_data := "", created_at := 1 } : Statement) ∈ remove "X" removeStore := by
  have h := remove_deletes_exactly_matching_text "X" removeStore
  exact ⟨h.1, h.2.1 (by decide), h.2.2 _ (by decide) (by decide)⟩

/-- C8: not-found conditions are represented as null or empty results:
`get_random` on the empty store is null for every permutation the backend
may choose, `get_latest_response` with no qualifying response rows is
null, and `filter` with criteria matching nothing is empty. -/
theorem not_found_is_null_or_empty :
    (∀ σ : List Statement → List Statement,
        (∀ l, List.Perm (σ l) l) → get_random σ [] = none)
  ∧ (∀ (conversation : String) (store : List Statement),
        (∀ r ∈ responseRows store, r.conversation ≠ conversation) →
        get_latest_response conversation store = none)
  ∧ (∀ (t : String) (store : List Statement),
        (∀ s ∈ store, s.text ≠ t) → filter [("text", Val.vstr t)] store = []) := by
  refine ⟨?_, ?_, ?_⟩
  · intro σ h
    have h0 : σ [] = [] := List.Perm.eq_nil (h [])
    simp [get_random, h0]
  · intro conversation store h
    have h0 : (responseRows store).filter (fun r => r.conversation == conversation) = [] :=
      List.filter_eq_nil_iff.mpr (fun r hr => by simp [h r hr])
    simp [get_latest_response, h0]
  · intro t store h
    have heq : filter [("text", Val.vstr t)] store
        = store.filter (fun s => combineQ [("text", Val.vstr t)] [] store s) := rfl
    rw [heq]
    exact List.filter_eq_nil_iff.mpr (fun s hs => by simp [combineQ, matchAll, matchKwarg, h s hs])

/-- C8 witness: the identity permutation on the empty store, conversation
`test` on the empty store, and a text filter on the empty store. -/
theorem not_found_is_null_or_empty_witness :
    get_random id [] = none
  ∧ get_latest_response "test" [] = none
  ∧ filter [("text", Val.vstr "missing")] [] = [] := by
  have h := not_found_is_null_or_empty
  exact ⟨h.1 id (fun l => List.Perm.refl l),
    h.2.1 "test" [] (by simp [responseRows]),
    h.2.2 "missing" [] (by simp)⟩

/-- C9: the `in_response_to` spelling of a criterion key gives exactly the
same result set as the backend-native `in_response` spelling, both for the
plain key and for the nested reply-target-text key; and the nested
criterion matches a statement when the constraint holds on either side of
a reply-pair — the statement replies to a statement with the given text,
or is replied to by one — combined by logical OR. -/
theorem alias_resolution_and_reverse_relation :
    (∀ (store : List Statement) (v : Val),
        filter [("in_response_to", v)] store = filter [("in_response", v)] store)
  ∧ (∀ (store : List Statement) (x : String),
        filter [("in_response_to__response__text", Val.vstr x)] store
          = filter [("in_response__response__text", Val.vstr x)] store)
  ∧ (∀ (store : List Statement) (x : String) (s : Statement),
        s ∈ filter [("in_response__response__text", Val.vstr x)] store
          ↔ s ∈ store ∧ (s.in_response_to = some x
              ∨ ∃ u ∈ store, u.text = x ∧ u.in_response_to = some s.text)) := by
  refine ⟨fun _ _ => rfl, fun _ _ => rfl, ?_⟩
  intro store x s
  have h : filter [("in_response__response__text", Val.vstr x)] store
      = store.filter (fun s =>
          matchAll store s [("in_response__response__text", Val.vstr x)]
          || matchAll store s [("responses__statement__text", Val.vstr x)]) := rfl
  rw [h]
  simp only [List.mem_filter, matchAll, matchKwarg, List.all_cons, List.all_nil,
    Bool.and_true, Bool.or_eq_true, List.any_eq_true, beq_iff_eq, Bool.and_eq_true]

/-- C10: every read operation — count, filter with any criteria, random
selection, latest-response lookup, response-statement listing — leaves the
store unchanged: after any sequence of reads, `count` and `filter` answer
exactly as on the original state. -/
theorem reads_leave_store_unchanged :
    ∀ (ops : List ReadOp) (a : Adapter),
      runReads ops a = a
    ∧ (∀ kwargs : Kwargs, filter kwargs (runReads ops a).store = filter kwargs a.store)
    ∧ count (runReads ops a).store = count a.store := by
  have key : ∀ (ops : List ReadOp) (a : Adapter), runReads ops a = a := by
    intro ops
    induction ops with
    | nil => intro a; rfl
    | cons op rest ih =>
      intro a
      have h1 : (runRead op a).1 = a := by cases op <;> rfl
      calc runReads (op :: rest) a = runReads rest ((runRead op a).1) := rfl
        _ = runReads rest a := by rw [h1]
        _ = a := ih a
  intro ops a
  exact ⟨key ops a, fun kwargs => by rw [key ops a], by rw [key ops a]⟩
